import Mathlib

/-!
Verification of the DARA connection facade (`src/dara_agent_backend.py`).

The facade (`DARAConnectionManager`) holds two optional connection slots
(`dashboard_conn`, `cortex_conn`) and exposes query operations against them.
The mutable Python object state is embedded as explicit state passing over
`DARAState`; the vendor driver and the remote Snowflake service are external
collaborators and are embedded as an oracle structure `RemoteService`.
Each operation returns its result (`Except PyError`), the facade state after
the call, and the list of network events the call produced, so that claims of
the form "no query is submitted to the remote service" are statable.
-/

namespace DARA

/-- Scalar / structured values as they appear in result cells and parsed
JSON payloads (the image of the Python function `json.loads`). -/
inductive Json where
  | null : Json
  | bool (b : Bool) : Json
  | num (n : Int) : Json
  | str (s : String) : Json
  | arr (elems : List Json) : Json
  | obj (fields : List (String × Json)) : Json

/-- A `DictCursor` row: an ordered mapping from column name to value. -/
abbrev Row := List (String × Json)

/-- The connection object of the vendor driver. Python keeps the object in the
slot after `close()`; only its open/closed state changes, so the embedding
records that one bit. -/
structure SnowflakeConnection where
  isOpen : Bool
deriving Repr, DecidableEq

/-- The facade state: the two connection slots of `DARAConnectionManager`
(`self.dashboard_conn`, `self.cortex_conn`, both `None` in `__init__`). -/
structure DARAState where
  dashboard_conn : Option SnowflakeConnection
  cortex_conn : Option SnowflakeConnection
deriving Repr, DecidableEq

/-- The state produced by `DARAConnectionManager.__init__`. -/
def initState : DARAState := ⟨none, none⟩

/-- Which of the two sessions a network event went through. -/
inductive ConnTag where
  | dashboard : ConnTag
  | cortex : ConnTag
deriving Repr, DecidableEq

/-- Observable network activity of one facade call: a SQL text submitted
through the cursor of a session, or a driver-level connect negotiation. -/
inductive NetEvent where
  | submit (conn : ConnTag) (sql : String) : NetEvent
  | connectAttempt (authenticator : String) : NetEvent
deriving Repr, DecidableEq

/-- The Python exception classes the facade and driver raise, with their
message strings. -/
inductive PyError where
  | connectionError (msg : String) : PyError
  | valueError (msg : String) : PyError
  | databaseError (msg : String) : PyError
  | typeError (msg : String) : PyError
  | lookupError (msg : String) : PyError
deriving Repr, DecidableEq

/-- Outcome of one facade call: the returned value or raised exception, the
facade state after the call, and the network events in order. -/
structure OpResult (α : Type) where
  result : Except PyError α
  state : DARAState
  network : List NetEvent

/-- Oracle for everything outside this repository: the responses of the remote service, the connect
negotiation of the driver, and the Python `json` library.
`execDict` gives the rows a `DictCursor` fetch returns for a SQL text;
`execPlain` the tuple rows of a plain cursor; `patConnect` the outcome of
`snowflake.connector.connect` under PAT credentials; `searchMatches` the
ranked matching rows a Cortex Search service holds for a query (see
`searchServiceRows`). -/
structure RemoteService where
  execDict : String → List Row
  execPlain : String → List (List Json)
  jsonLoads : String → Option Json
  jsonDumps : List Row → String
  patConnect : String → String → String → String → String → String → String →
    Except String Unit
  searchMatches : String → String → List Row

/-- Modelled from the spec: the vendor driver (an external collaborator,
spec section 6) fails fast when a cursor is acquired on a closed connection,
raising a connection-state error without contacting the remote service; the
section 3 invariant relies on this driver behavior for the after-close case. -/
def connectionClosedMsg : String := "Connection is closed"

/-- `SnowflakeConnection.close()`: the driver marks the handle closed; closing
an already-closed handle is a no-op and never raises. -/
def closeConn (_c : SnowflakeConnection) : SnowflakeConnection := ⟨false⟩

/-- `close_all`: calls `.close()` on each slot that is non-`None` (the slot
keeps holding the now-closed object); an absent slot is untouched. -/
def close_all (st : DARAState) : DARAState :=
  ⟨st.dashboard_conn.map closeConn, st.cortex_conn.map closeConn⟩

/-- Message of the `ValueError` raised by `connect_cortex_pat` on a
malformed token. -/
def patErrorMsg : String := "Invalid PAT format. Token should start with \x27sfp_\x27"

/-- The Python method `str.startswith`: a prefix test on the character sequence. -/
def pyStartsWith (s pre : String) : Bool := pre.data.isPrefixOf s.data

/-- `connect_cortex_pat`: validates the token prefix before any network
activity, then hands the credentials to the driver; on success stores the
fresh open connection in the cortex slot and returns it, on driver rejection
propagates the error with the state unchanged. -/
def connect_cortex_pat (svc : RemoteService) (st : DARAState)
    (account user pat warehouse database schema role : String) :
    OpResult SnowflakeConnection :=
  if pyStartsWith pat "sfp_" then
    match svc.patConnect account user pat warehouse database schema role with
    | Except.ok _ =>
        let conn : SnowflakeConnection := ⟨true⟩
        ⟨Except.ok conn, ⟨st.dashboard_conn, some conn⟩,
          [NetEvent.connectAttempt "snowflake_jwt"]⟩
    | Except.error e =>
        ⟨Except.error (PyError.databaseError e), st,
          [NetEvent.connectAttempt "snowflake_jwt"]⟩
  else
    ⟨Except.error (PyError.valueError patErrorMsg), st, []⟩

/-- Message of the `ConnectionError` raised by `get_dashboard_kpi` when the
dashboard slot is `None`. -/
def dashboardNotConnectedMsg : String :=
  "Dashboard not connected. Call connect_dashboard_* first."

/-- The `delinquency` KPI template, verbatim from the registry literal. -/
def delinquencyQuery : String :=
  "\n                SELECT \n                    COUNT(*) FILTER (WHERE dpd_bucket = \x2730\x27) as dpd_30_count,\n                    COUNT(*) FILTER (WHERE dpd_bucket = \x2760\x27) as dpd_60_count,\n                    COUNT(*) FILTER (WHERE dpd_bucket = \x2790+\x27) as dpd_90_count,\n                    SUM(upb) FILTER (WHERE dpd_bucket = \x2730\x27) as dpd_30_upb,\n                    SUM(upb) FILTER (WHERE dpd_bucket = \x2760\x27) as dpd_60_upb,\n                    SUM(upb) FILTER (WHERE dpd_bucket = \x2790+\x27) as dpd_90_upb\n                FROM loan_portfolio\n                WHERE status = \x27ACTIVE\x27\n            "

/-- The `portfolio_overview` KPI template, verbatim from the registry literal. -/
def portfolioOverviewQuery : String :=
  "\n                SELECT \n                    COUNT(*) as total_loans,\n                    SUM(upb) as total_upb,\n                    AVG(upb) as avg_balance,\n                    COUNT(*) FILTER (WHERE current_status = \x27CURRENT\x27) * 100.0 / COUNT(*) as current_pct\n                FROM loan_portfolio\n                WHERE status = \x27ACTIVE\x27\n            "

/-- The fixed KPI registry (`queries` in `get_dashboard_kpi`). -/
def kpiQueries : List (String × String) :=
  [("delinquency", delinquencyQuery),
   ("portfolio_overview", portfolioOverviewQuery)]

/-- `get_dashboard_kpi`: `None`-check on the dashboard slot, cursor
acquisition (which fails fast on a closed connection), registry lookup, then
one execute returning the first row as a mapping or an empty mapping. -/
def get_dashboard_kpi (svc : RemoteService) (st : DARAState)
    (kpi_name : String) : OpResult Row :=
  match st.dashboard_conn with
  | none =>
      ⟨Except.error (PyError.connectionError dashboardNotConnectedMsg), st, []⟩
  | some conn =>
      if conn.isOpen then
        match kpiQueries.lookup kpi_name with
        | none =>
            ⟨Except.error (PyError.valueError ("Unknown KPI: " ++ kpi_name)),
              st, []⟩
        | some query =>
            ⟨Except.ok (((svc.execDict query).head?).getD []), st,
              [NetEvent.submit ConnTag.dashboard query]⟩
      else
        ⟨Except.error (PyError.databaseError connectionClosedMsg), st, []⟩

/-- Message of the `ConnectionError` raised by `query_cortex` when the cortex
slot is `None`. -/
def cortexNotConnectedMsg : String :=
  "Cortex not connected. Call connect_cortex_pat first."

/-- The fixed assistant persona used when no context is supplied. -/
def defaultSystemPrompt : String :=
  "You are DARA Agent, an AI assistant for mortgage servicing analytics. \nYou have access to loan portfolio data and can answer questions about delinquency, \nforeclosures, escrow, payments, compliance, and customer service metrics."

/-- `system_prompt = context or <persona>`: the Python `or` falls back to the
persona when `context` is `None` or the empty (falsy) string. -/
def resolveSystemPrompt (context : Option String) : String :=
  match context with
  | some c => if c = "" then defaultSystemPrompt else c
  | none => defaultSystemPrompt

/-- The templated `SNOWFLAKE.CORTEX.COMPLETE` invocation, with `model`,
`system_prompt` and `user_question` substituted directly into the SQL text
(the documented injection hazard is preserved, not fixed, in this model). -/
def completeQuerySQL (model system_prompt user_question : String) : String :=
  "\n        SELECT SNOWFLAKE.CORTEX.COMPLETE(\n            \x27" ++ model ++
    "\x27,\n            ARRAY_CONSTRUCT(\n                OBJECT_CONSTRUCT(\x27role\x27, \x27system\x27, \x27content\x27, \x27" ++
    system_prompt ++
    "\x27),\n                OBJECT_CONSTRUCT(\x27role\x27, \x27user\x27, \x27content\x27, \x27" ++
    user_question ++
    "\x27)\n            )\n        ) as response\n        "

/-- The fallback string `query_cortex` returns when the remote call yields no
row. -/
def fallbackResponse : String :=
  "I couldn\x27t generate a response. Please try again."

/-- Python subscript `j[key]` on a parsed JSON value: `KeyError` when the key
is absent from a dict, `TypeError` when the value is not a dict. -/
def jsonObjGet (j : Json) (key : String) : Except PyError Json :=
  match j with
  | Json.obj fields =>
      match fields.lookup key with
      | some v => Except.ok v
      | none => Except.error (PyError.lookupError key)
  | _ => Except.error (PyError.typeError "value is not subscriptable by string key")

/-- Python subscript `j[i]` on a parsed JSON value: `IndexError` when out of
range, `TypeError` when the value is not a list. -/
def jsonArrGet (j : Json) (i : Nat) : Except PyError Json :=
  match j with
  | Json.arr elems =>
      match elems.get? i with
      | some v => Except.ok v
      | none => Except.error (PyError.lookupError "list index out of range")
  | _ => Except.error (PyError.typeError "value is not subscriptable by integer index")

/-- `json.loads(result[0])` followed by `["choices"][0]["messages"]`. The
fetched cell must be a string document; the extracted message is returned as
the response text (the source annotates the result as `str`). -/
def extractCortexText (svc : RemoteService) (cell : Json) :
    Except PyError String :=
  match cell with
  | Json.str payload =>
      match svc.jsonLoads payload with
      | none => Except.error (PyError.valueError "json.loads: invalid JSON document")
      | some response_json => do
          let choices ← jsonObjGet response_json "choices"
          let first ← jsonArrGet choices 0
          let messages ← jsonObjGet first "messages"
          match messages with
          | Json.str s => Except.ok s
          | _ => Except.error (PyError.typeError "completion text is not a string")
  | _ => Except.error (PyError.typeError "json.loads expects a string document")

/-- `query_cortex`: `None`-check on the cortex slot, cursor acquisition
(fails fast on a closed connection), one templated COMPLETE invocation; a
fetched row is parsed as JSON and the message text of its first choice returned,
no row yields the fixed fallback string instead of an error. -/
def query_cortex (svc : RemoteService) (st : DARAState)
    (user_question model : String) (context : Option String) :
    OpResult String :=
  match st.cortex_conn with
  | none =>
      ⟨Except.error (PyError.connectionError cortexNotConnectedMsg), st, []⟩
  | some conn =>
      if conn.isOpen then
        let system_prompt := resolveSystemPrompt context
        let query := completeQuerySQL model system_prompt user_question
        match (svc.execPlain query).head? with
        | some row =>
            match row.head? with
            | some cell =>
                ⟨extractCortexText svc cell, st,
                  [NetEvent.submit ConnTag.cortex query]⟩
            | none =>
                ⟨Except.error (PyError.lookupError "tuple index out of range"),
                  st, [NetEvent.submit ConnTag.cortex query]⟩
        | none =>
            ⟨Except.ok fallbackResponse, st,
              [NetEvent.submit ConnTag.cortex query]⟩
      else
        ⟨Except.error (PyError.databaseError connectionClosedMsg), st, []⟩

/-- Message of the `ConnectionError` raised by `query_cortex_with_data` when
either slot is `None`. -/
def bothRequiredMsg : String := "Both Dashboard and Cortex connections required"

/-- Header prepended to the serialized data block. -/
def dataContextHeader : String := "\n\nHere is the relevant data:\n"

/-- `query_cortex_with_data`: `None`-check on both slots; `if data_query:` is
a Python truthiness test, so the dashboard fetch happens only for a non-`None`,
non-empty `data_query` (the empty string is falsy and leaves `data_context`
empty); a truthy `data_query` fetches its rows through the dashboard session
and appends their JSON serialization to the question; then delegates to
`query_cortex` with no explicit context. -/
def query_cortex_with_data (svc : RemoteService) (st : DARAState)
    (user_question model : String) (data_query : Option String) :
    OpResult String :=
  match st.dashboard_conn, st.cortex_conn with
  | none, _ =>
      ⟨Except.error (PyError.connectionError bothRequiredMsg), st, []⟩
  | some _, none =>
      ⟨Except.error (PyError.connectionError bothRequiredMsg), st, []⟩
  | some dconn, some _ =>
      match data_query with
      | some dq =>
          if dq = "" then
            let enhanced_question := user_question ++ ""
            query_cortex svc st enhanced_question model none
          else if dconn.isOpen then
            let data := svc.execDict dq
            let data_context := dataContextHeader ++ svc.jsonDumps data
            let enhanced_question := user_question ++ data_context
            let inner := query_cortex svc st enhanced_question model none
            ⟨inner.result, inner.state,
              NetEvent.submit ConnTag.dashboard dq :: inner.network⟩
          else
            ⟨Except.error (PyError.databaseError connectionClosedMsg), st, []⟩
      | none =>
          let enhanced_question := user_question ++ ""
          query_cortex svc st enhanced_question model none

/-- Message of the `ConnectionError` raised by `cortex_search` when the
cortex slot is `None`. -/
def searchNotConnectedMsg : String := "Cortex not connected"

/-- The default `limit` of `cortex_search`. -/
def defaultSearchLimit : Nat := 5

/-- The templated SEARCH invocation built by `cortex_search`. -/
def searchQuerySQL (search_service query : String) (columns : List String)
    (limit : Nat) : String :=
  let columns_str := String.intercalate ", " columns
  "\n        SELECT " ++ columns_str ++ "\n        FROM TABLE(\n            " ++
    search_service ++ ".SEARCH(\n                \x27" ++ query ++
    "\x27,\n                LIMIT => " ++ toString limit ++
    "\n            )\n        )\n        "

/-- `SELECT columns FROM TABLE(...)`: the remote side projects each returned
row to the requested columns, keeping their order. -/
def projectRow (columns : List String) (row : Row) : Row :=
  columns.filterMap (fun c => (row.lookup c).map (fun v => (c, v)))

/-- Modelled from the spec: the hosted semantic-search table function is an
external collaborator (spec section 6) taking `(query, limit)` and returning
its ranked matching rows capped at `limit`; the capping and projection happen
remotely, not in the facade. `svc.searchMatches` holds the full
ranked match list of the service per query. -/
def searchServiceRows (svc : RemoteService) (search_service query : String)
    (columns : List String) (limit : Nat) : List Row :=
  (((svc.searchMatches search_service query).map (projectRow columns)).take limit)

/-- `cortex_search`: `None`-check on the cortex slot, cursor acquisition
(fails fast on a closed connection), one templated SEARCH invocation; returns
the rows the remote service answers with, in its order. -/
def cortex_search (svc : RemoteService) (st : DARAState)
    (search_service query : String) (columns : List String) (limit : Nat) :
    OpResult (List Row) :=
  match st.cortex_conn with
  | none =>
      ⟨Except.error (PyError.connectionError searchNotConnectedMsg), st, []⟩
  | some conn =>
      if conn.isOpen then
        let query_sql := searchQuerySQL search_service query columns limit
        ⟨Except.ok (searchServiceRows svc search_service query columns limit),
          st, [NetEvent.submit ConnTag.cortex query_sql]⟩
      else
        ⟨Except.error (PyError.databaseError connectionClosedMsg), st, []⟩

/-- A session slot that is unavailable for queries: never connected (`None`)
or already closed. -/
def sessionDown (slot : Option SnowflakeConnection) : Prop :=
  slot = none ∨ ∃ c, slot = some c ∧ c.isOpen = false

/-- A connection-state error: the `ConnectionError` of the facade or the
closed-connection `DatabaseError` of the driver. -/
def isConnStateError {α : Type} (r : Except PyError α) : Prop :=
  ∃ msg, r = Except.error (PyError.connectionError msg) ∨
    r = Except.error (PyError.databaseError msg)

/-- No SQL text was submitted through the given session. -/
def noSubmitTo (tag : ConnTag) (events : List NetEvent) : Prop :=
  ∀ sql, NetEvent.submit tag sql ∉ events

/-- A live driver connection, as produced by a successful connect. -/
def openConn : SnowflakeConnection := ⟨true⟩

/-- State after a successful Dashboard connect only. -/
def stDashOnly : DARAState := ⟨some openConn, none⟩

/-- State after a successful Cortex connect only. -/
def stCortexOnly : DARAState := ⟨none, some openConn⟩

/-- State after both connects succeeded. -/
def stBoth : DARAState := ⟨some openConn, some openConn⟩

/-- A remote service whose every query answers with no rows. -/
def emptyService : RemoteService :=
  ⟨fun _ => [], fun _ => [], fun _ => none, fun _ => "[]",
   fun _ _ _ _ _ _ _ => Except.ok (), fun _ _ => []⟩

/-- A sample KPI result row. -/
def kpiRow : Row := [("total_loans", Json.num 2)]

/-- A remote service answering one KPI row on every dict query. -/
def kpiService : RemoteService :=
  ⟨fun _ => [kpiRow], fun _ => [], fun _ => none, fun _ => "[]",
   fun _ _ _ _ _ _ _ => Except.ok (), fun _ _ => []⟩

/-- A sample documentation row held by a mock search service. -/
def searchDoc (i : Nat) : Row :=
  [("title", Json.str (toString i)), ("content", Json.str "doc")]

/-- A mock whose search service holds 8 matching rows for every query. -/
def eightMatchService : RemoteService :=
  ⟨fun _ => [], fun _ => [], fun _ => none, fun _ => "[]",
   fun _ _ _ _ _ _ _ => Except.ok (),
   fun _ _ => [searchDoc 0, searchDoc 1, searchDoc 2, searchDoc 3,
     searchDoc 4, searchDoc 5, searchDoc 6, searchDoc 7]⟩

/-- C3: close_all is idempotent — a second call in succession yields the
same state (and, being a total function, cannot error), and an absent
Session slot stays absent (no close action is performed for it). -/
theorem close_all_idempotent (st : DARAState) :
    close_all (close_all st) = close_all st ∧
    (st.dashboard_conn = none → (close_all st).dashboard_conn = none) ∧
    (st.cortex_conn = none → (close_all st).cortex_conn = none) := by
  refine ⟨?_, ?_, ?_⟩
  · cases st with
    | mk d c => cases d <;> cases c <;> rfl
  · intro h
    simp [close_all, h]
  · intro h
    simp [close_all, h]

theorem close_all_idempotent_witness :
    close_all (close_all initState) = close_all initState ∧
    (close_all initState).dashboard_conn = none ∧
    (close_all initState).cortex_conn = none :=
  ⟨(close_all_idempotent initState).1,
   (close_all_idempotent initState).2.1 rfl,
   (close_all_idempotent initState).2.2 rfl⟩

/-- C7: with no prior successful Dashboard connect (the slot is `None`),
`get_dashboard_kpi` fails with the not-connected `ConnectionError` for every
KPI name, and nothing is submitted to the remote service. -/
theorem get_dashboard_kpi_not_connected (svc : RemoteService) (st : DARAState)
    (kpi_name : String) (h : st.dashboard_conn = none) :
    (get_dashboard_kpi svc st kpi_name).result =
      Except.error (PyError.connectionError dashboardNotConnectedMsg) ∧
    (get_dashboard_kpi svc st kpi_name).network = [] := by
  simp [get_dashboard_kpi, h]

theorem get_dashboard_kpi_not_connected_witness :
    (get_dashboard_kpi emptyService initState "portfolio_overview").result =
      Except.error (PyError.connectionError dashboardNotConnectedMsg) ∧
    (get_dashboard_kpi emptyService initState "portfolio_overview").network = [] :=
  get_dashboard_kpi_not_connected emptyService initState "portfolio_overview" rfl

/-- C6: with the Dashboard Session connected, a name outside the fixed
two-element registry makes `get_dashboard_kpi` fail with the unknown-KPI
`ValueError`, and nothing is submitted to the remote service. -/
theorem get_dashboard_kpi_unknown_kpi (svc : RemoteService) (st : DARAState)
    (kpi_name : String) (conn : SnowflakeConnection)
    (hconn : st.dashboard_conn = some conn) (hopen : conn.isOpen = true)
    (h1 : kpi_name ≠ "delinquency") (h2 : kpi_name ≠ "portfolio_overview") :
    (get_dashboard_kpi svc st kpi_name).result =
      Except.error (PyError.valueError ("Unknown KPI: " ++ kpi_name)) ∧
    (get_dashboard_kpi svc st kpi_name).network = [] := by
  have hb1 : (kpi_name == "delinquency") = false := beq_eq_false_iff_ne.mpr h1
  have hb2 : (kpi_name == "portfolio_overview") = false := beq_eq_false_iff_ne.mpr h2
  have hl : kpiQueries.lookup kpi_name = none := by
    simp [kpiQueries, List.lookup, hb1, hb2]
  simp [get_dashboard_kpi, hconn, hopen, hl]

theorem get_dashboard_kpi_unknown_kpi_witness :
    (get_dashboard_kpi emptyService stDashOnly "nonexistent_kpi").result =
      Except.error (PyError.valueError ("Unknown KPI: " ++ "nonexistent_kpi")) ∧
    (get_dashboard_kpi emptyService stDashOnly "nonexistent_kpi").network = [] :=
  get_dashboard_kpi_unknown_kpi emptyService stDashOnly "nonexistent_kpi" openConn
    rfl rfl (by decide) (by decide)

/-- C9: with the Dashboard Session connected and a registered KPI name,
`get_dashboard_kpi` executes the registered template and returns the first
row of its result set as a mapping, or the empty mapping when the result set
has no rows. -/
theorem get_dashboard_kpi_first_row (svc : RemoteService) (st : DARAState)
    (kpi_name query : String) (conn : SnowflakeConnection)
    (hconn : st.dashboard_conn = some conn) (hopen : conn.isOpen = true)
    (hlookup : kpiQueries.lookup kpi_name = some query) :
    (get_dashboard_kpi svc st kpi_name).result =
      Except.ok (((svc.execDict query).head?).getD []) ∧
    (get_dashboard_kpi svc st kpi_name).network =
      [NetEvent.submit ConnTag.dashboard query] ∧
    (svc.execDict query = [] →
      (get_dashboard_kpi svc st kpi_name).result = Except.ok []) ∧
    (∀ r rs, svc.execDict query = r :: rs →
      (get_dashboard_kpi svc st kpi_name).result = Except.ok r) := by
  refine ⟨?_, ?_, ?_, ?_⟩
  · simp [get_dashboard_kpi, hconn, hopen, hlookup]
  · simp [get_dashboard_kpi, hconn, hopen, hlookup]
  · intro h
    simp [get_dashboard_kpi, hconn, hopen, hlookup, h]
  · intro r rs h
    simp [get_dashboard_kpi, hconn, hopen, hlookup, h]

theorem get_dashboard_kpi_first_row_witness :
    (get_dashboard_kpi kpiService stDashOnly "portfolio_overview").result =
      Except.ok kpiRow :=
  (get_dashboard_kpi_first_row kpiService stDashOnly "portfolio_overview"
    portfolioOverviewQuery openConn rfl rfl rfl).2.2.2 kpiRow [] rfl

/-- C4: `connect_cortex_pat` rejects every token not beginning with `sfp_`
with the invalid-format `ValueError` before any network activity, and for
every token beginning with `sfp_` it proceeds to the network
connect negotiation of the driver. -/
theorem connect_cortex_pat_validates_format (svc : RemoteService)
    (st : DARAState)
    (account user pat warehouse database schema role : String) :
    (pyStartsWith pat "sfp_" = false →
      (connect_cortex_pat svc st account user pat warehouse database schema
        role).result = Except.error (PyError.valueError patErrorMsg) ∧
      (connect_cortex_pat svc st account user pat warehouse database schema
        role).network = []) ∧
    (pyStartsWith pat "sfp_" = true →
      (connect_cortex_pat svc st account user pat warehouse database schema
        role).network = [NetEvent.connectAttempt "snowflake_jwt"]) := by
  constructor
  · intro h
    simp [connect_cortex_pat, h]
  · intro h
    simp only [connect_cortex_pat, h, if_true]
    cases svc.patConnect account user pat warehouse database schema role <;> rfl

theorem connect_cortex_pat_validates_format_witness :
    ((connect_cortex_pat emptyService initState "xy12345" "U" "abc123" "WH"
        "DB" "SCH" "R").result =
      Except.error (PyError.valueError patErrorMsg) ∧
     (connect_cortex_pat emptyService initState "xy12345" "U" "abc123" "WH"
        "DB" "SCH" "R").network = []) ∧
    (connect_cortex_pat emptyService initState "xy12345" "U" "sfp_abc123" "WH"
        "DB" "SCH" "R").network = [NetEvent.connectAttempt "snowflake_jwt"] :=
  ⟨(connect_cortex_pat_validates_format emptyService initState "xy12345" "U"
      "abc123" "WH" "DB" "SCH" "R").1 (by decide),
   (connect_cortex_pat_validates_format emptyService initState "xy12345" "U"
      "sfp_abc123" "WH" "DB" "SCH" "R").2 (by decide)⟩

/-- C10: when `connect_cortex_pat` rejects a token not beginning with
`sfp_`, the facade state is unchanged — both Session slots hold exactly the
values they held before the call. -/
theorem connect_cortex_pat_invalid_preserves_state (svc : RemoteService)
    (st : DARAState)
    (account user pat warehouse database schema role : String)
    (h : pyStartsWith pat "sfp_" = false) :
    (connect_cortex_pat svc st account user pat warehouse database schema
      role).state = st ∧
    (connect_cortex_pat svc st account user pat warehouse database schema
      role).state.dashboard_conn = st.dashboard_conn ∧
    (connect_cortex_pat svc st account user pat warehouse database schema
      role).state.cortex_conn = st.cortex_conn := by
  have hst : (connect_cortex_pat svc st account user pat warehouse database
      schema role).state = st := by
    simp [connect_cortex_pat, h]
  exact ⟨hst, by rw [hst], by rw [hst]⟩

theorem connect_cortex_pat_invalid_preserves_state_witness :
    (connect_cortex_pat kpiService stBoth "xy12345" "U" "abc123" "WH" "DB"
      "SCH" "R").state = stBoth ∧
    (connect_cortex_pat kpiService stBoth "xy12345" "U" "abc123" "WH" "DB"
      "SCH" "R").state.dashboard_conn = stBoth.dashboard_conn ∧
    (connect_cortex_pat kpiService stBoth "xy12345" "U" "abc123" "WH" "DB"
      "SCH" "R").state.cortex_conn = stBoth.cortex_conn :=
  connect_cortex_pat_invalid_preserves_state kpiService stBoth "xy12345" "U"
    "abc123" "WH" "DB" "SCH" "R" (by decide)

/-- C5: with the Assistant Session connected, when the remote completion
call succeeds but returns no row, `query_cortex` returns the literal
fallback string rather than raising an error. -/
theorem query_cortex_empty_result_fallback (svc : RemoteService)
    (st : DARAState) (user_question model : String) (context : Option String)
    (conn : SnowflakeConnection)
    (hconn : st.cortex_conn = some conn) (hopen : conn.isOpen = true)
    (hrows : svc.execPlain
      (completeQuerySQL model (resolveSystemPrompt context) user_question) = []) :
    (query_cortex svc st user_question model context).result =
      Except.ok fallbackResponse := by
  simp [query_cortex, hconn, hopen, hrows]

theorem query_cortex_empty_result_fallback_witness :
    (query_cortex emptyService stCortexOnly
      "What is the current delinquency rate?" "snowflake-arctic" none).result =
      Except.ok fallbackResponse :=
  query_cortex_empty_result_fallback emptyService stCortexOnly
    "What is the current delinquency rate?" "snowflake-arctic" none openConn
    rfl rfl rfl

/-- C8: with the Dashboard Session absent and the Assistant Session
connected, `query_cortex_with_data` fails with the both-connections-required
`ConnectionError` for every `data_query` value, and no query is executed
against either Session. -/
theorem query_cortex_with_data_requires_both (svc : RemoteService)
    (st : DARAState) (user_question model : String)
    (data_query : Option String) (conn : SnowflakeConnection)
    (hdash : st.dashboard_conn = none) (hcortex : st.cortex_conn = some conn)
    (hopen : conn.isOpen = true) :
    (query_cortex_with_data svc st user_question model data_query).result =
      Except.error (PyError.connectionError bothRequiredMsg) ∧
    (query_cortex_with_data svc st user_question model data_query).network = [] := by
  simp [query_cortex_with_data, hdash]

theorem query_cortex_with_data_requires_both_witness :
    (query_cortex_with_data kpiService stCortexOnly
      "Explain the current delinquency trends" "snowflake-arctic"
      (some "SELECT * FROM delinquency_summary LIMIT 10")).result =
      Except.error (PyError.connectionError bothRequiredMsg) ∧
    (query_cortex_with_data kpiService stCortexOnly
      "Explain the current delinquency trends" "snowflake-arctic"
      (some "SELECT * FROM delinquency_summary LIMIT 10")).network = [] :=
  query_cortex_with_data_requires_both kpiService stCortexOnly
    "Explain the current delinquency trends" "snowflake-arctic"
    (some "SELECT * FROM delinquency_summary LIMIT 10") openConn rfl rfl rfl

/-- C1: with the Assistant Session connected, `cortex_search` returns
exactly the rows the remote service answers the templated SEARCH invocation
with — its ranked matches, projected and capped at `limit`, in the remote
order — so the returned sequence never exceeds `limit` records, and with the
default `limit = 5` against a service holding 8 matching rows it returns
exactly the first 5 of them. -/
theorem cortex_search_respects_limit (svc : RemoteService) (st : DARAState)
    (search_service query : String) (columns : List String) (limit : Nat)
    (conn : SnowflakeConnection)
    (hconn : st.cortex_conn = some conn) (hopen : conn.isOpen = true) :
    (cortex_search svc st search_service query columns limit).result =
      Except.ok (((svc.searchMatches search_service query).map
        (projectRow columns)).take limit) ∧
    (∀ rows,
      (cortex_search svc st search_service query columns limit).result =
        Except.ok rows → rows.length ≤ limit) ∧
    (limit = defaultSearchLimit →
      (svc.searchMatches search_service query).length = 8 →
      ∀ rows,
        (cortex_search svc st search_service query columns limit).result =
          Except.ok rows →
        rows.length = 5 ∧
        rows = ((svc.searchMatches search_service query).map
          (projectRow columns)).take 5) := by
  have hres : (cortex_search svc st search_service query columns limit).result =
      Except.ok (((svc.searchMatches search_service query).map
        (projectRow columns)).take limit) := by
    simp [cortex_search, hconn, hopen, searchServiceRows]
  refine ⟨hres, ?_, ?_⟩
  · intro rows h
    rw [hres] at h
    injection h with h
    subst h
    exact List.length_take_le _ _
  · intro h5 h8 rows h
    rw [hres] at h
    injection h with h
    subst h
    subst h5
    constructor
    · simp [List.length_take, h8, defaultSearchLimit]
    · rfl

theorem cortex_search_respects_limit_witness :
    (cortex_search eightMatchService stCortexOnly "servicing_docs"
      "foreclosure process" ["title", "content"] defaultSearchLimit).result =
      Except.ok [searchDoc 0, searchDoc 1, searchDoc 2, searchDoc 3,
        searchDoc 4] ∧
    (eightMatchService.searchMatches "servicing_docs"
      "foreclosure process").length = 8 ∧
    [searchDoc 0, searchDoc 1, searchDoc 2, searchDoc 3,
      searchDoc 4].length = 5 := by
  have h := cortex_search_respects_limit eightMatchService stCortexOnly
    "servicing_docs" "foreclosure process" ["title", "content"]
    defaultSearchLimit openConn rfl rfl
  refine ⟨?_, rfl, rfl⟩
  rw [h.1]
  rfl

/-- The facade error or driver closed-connection error produced by
`get_dashboard_kpi` when the Dashboard Session is down, with no network
activity. -/
theorem get_dashboard_kpi_session_down (svc : RemoteService) (st : DARAState)
    (kpi_name : String) (h : sessionDown st.dashboard_conn) :
    isConnStateError (get_dashboard_kpi svc st kpi_name).result ∧
    (get_dashboard_kpi svc st kpi_name).network = [] := by
  rcases h with h | ⟨c, hc, hco⟩
  · exact ⟨⟨dashboardNotConnectedMsg, Or.inl (by simp [get_dashboard_kpi, h])⟩,
      by simp [get_dashboard_kpi, h]⟩
  · exact ⟨⟨connectionClosedMsg, Or.inr (by simp [get_dashboard_kpi, hc, hco])⟩,
      by simp [get_dashboard_kpi, hc, hco]⟩

/-- Analogue of `get_dashboard_kpi_session_down` for `query_cortex`. -/
theorem query_cortex_session_down (svc : RemoteService) (st : DARAState)
    (user_question model : String) (context : Option String)
    (h : sessionDown st.cortex_conn) :
    isConnStateError (query_cortex svc st user_question model context).result ∧
    (query_cortex svc st user_question model context).network = [] := by
  rcases h with h | ⟨c, hc, hco⟩
  · exact ⟨⟨cortexNotConnectedMsg, Or.inl (by simp [query_cortex, h])⟩,
      by simp [query_cortex, h]⟩
  · exact ⟨⟨connectionClosedMsg, Or.inr (by simp [query_cortex, hc, hco])⟩,
      by simp [query_cortex, hc, hco]⟩

/-- Analogue of `get_dashboard_kpi_session_down` for `cortex_search`. -/
theorem cortex_search_session_down (svc : RemoteService) (st : DARAState)
    (search_service query : String) (columns : List String) (limit : Nat)
    (h : sessionDown st.cortex_conn) :
    isConnStateError
      (cortex_search svc st search_service query columns limit).result ∧
    (cortex_search svc st search_service query columns limit).network = [] := by
  rcases h with h | ⟨c, hc, hco⟩
  · exact ⟨⟨searchNotConnectedMsg, Or.inl (by simp [cortex_search, h])⟩,
      by simp [cortex_search, h]⟩
  · exact ⟨⟨connectionClosedMsg, Or.inr (by simp [cortex_search, hc, hco])⟩,
      by simp [cortex_search, hc, hco]⟩

/-- The network activity of `query_cortex` is empty or the one templated
COMPLETE submission through the cortex session. -/
theorem query_cortex_network_shape (svc : RemoteService) (st : DARAState)
    (user_question model : String) (context : Option String) :
    (query_cortex svc st user_question model context).network = [] ∨
    (query_cortex svc st user_question model context).network =
      [NetEvent.submit ConnTag.cortex
        (completeQuerySQL model (resolveSystemPrompt context) user_question)] := by
  unfold query_cortex
  cases st.cortex_conn with
  | none => exact Or.inl rfl
  | some c =>
      cases hco : c.isOpen with
      | false => exact Or.inl (by simp [hco])
      | true =>
          cases h1 : (svc.execPlain (completeQuerySQL model
              (resolveSystemPrompt context) user_question)).head? with
          | none => exact Or.inr (by simp [hco, h1])
          | some row =>
              cases h2 : row.head? with
              | none => exact Or.inr (by simp [hco, h1, h2])
              | some cell => exact Or.inr (by simp [hco, h1, h2])

/-- `query_cortex` only ever submits through the cortex session. -/
theorem query_cortex_no_dashboard_submit (svc : RemoteService)
    (st : DARAState) (user_question model : String)
    (context : Option String) :
    noSubmitTo ConnTag.dashboard
      (query_cortex svc st user_question model context).network := by
  intro sql
  rcases query_cortex_network_shape svc st user_question model context with
    h | h <;> rw [h] <;> simp

/-- With the Dashboard Session down, `query_cortex_with_data` never submits
through the dashboard session, and errors with a connection-state error
whenever a truthy `data_query` is supplied (a `None` or empty-string
`data_query` is falsy in Python, so no query is issued against the Dashboard
Session at all). -/
theorem query_cortex_with_data_dashboard_down (svc : RemoteService)
    (st : DARAState) (user_question model : String)
    (data_query : Option String) (h : sessionDown st.dashboard_conn) :
    noSubmitTo ConnTag.dashboard
      (query_cortex_with_data svc st user_question model data_query).network ∧
    (data_query ≠ none → data_query ≠ some "" →
      isConnStateError
        (query_cortex_with_data svc st user_question model data_query).result) := by
  rcases h with hn | ⟨c, hc, hco⟩
  · constructor
    · intro sql
      simp [query_cortex_with_data, hn]
    · intro _ _
      exact ⟨bothRequiredMsg, Or.inl (by simp [query_cortex_with_data, hn])⟩
  · cases hcx : st.cortex_conn with
    | none =>
        constructor
        · intro sql
          simp [query_cortex_with_data, hc, hcx]
        · intro _ _
          exact ⟨bothRequiredMsg,
            Or.inl (by simp [query_cortex_with_data, hc, hcx])⟩
    | some c2 =>
        cases data_query with
        | none =>
            constructor
            · have hnet : (query_cortex_with_data svc st user_question model
                    none).network =
                  (query_cortex svc st (user_question ++ "") model none).network := by
                simp [query_cortex_with_data, hc, hcx]
              rw [hnet]
              exact query_cortex_no_dashboard_submit svc st
                (user_question ++ "") model none
            · intro hne _
              exact absurd rfl hne
        | some dq =>
            by_cases hdq : dq = ""
            · subst hdq
              constructor
              · have hnet : (query_cortex_with_data svc st user_question model
                      (some "")).network =
                    (query_cortex svc st (user_question ++ "") model
                      none).network := by
                  simp [query_cortex_with_data, hc, hcx]
                rw [hnet]
                exact query_cortex_no_dashboard_submit svc st
                  (user_question ++ "") model none
              · intro _ hne
                exact absurd rfl hne
            · constructor
              · intro sql
                simp [query_cortex_with_data, hc, hcx, hdq, hco]
              · intro _ _
                exact ⟨connectionClosedMsg,
                  Or.inr (by simp [query_cortex_with_data, hc, hcx, hdq, hco])⟩

/-- With the Assistant Session down, `query_cortex_with_data` fails with a
connection-state error and never submits through the cortex session. -/
theorem query_cortex_with_data_cortex_down (svc : RemoteService)
    (st : DARAState) (user_question model : String)
    (data_query : Option String) (h : sessionDown st.cortex_conn) :
    isConnStateError
      (query_cortex_with_data svc st user_question model data_query).result ∧
    noSubmitTo ConnTag.cortex
      (query_cortex_with_data svc st user_question model data_query).network := by
  cases hd : st.dashboard_conn with
  | none =>
      exact ⟨⟨bothRequiredMsg, Or.inl (by simp [query_cortex_with_data, hd])⟩,
        fun sql => by simp [query_cortex_with_data, hd]⟩
  | some dc =>
      rcases h with hn | ⟨c2, hc2, hc2o⟩
      · exact ⟨⟨bothRequiredMsg,
            Or.inl (by simp [query_cortex_with_data, hd, hn])⟩,
          fun sql => by simp [query_cortex_with_data, hd, hn]⟩
      · cases data_query with
        | none =>
            have hq := query_cortex_session_down svc st (user_question ++ "")
              model none (Or.inr ⟨c2, hc2, hc2o⟩)
            have heq : query_cortex_with_data svc st user_question model none =
                query_cortex svc st (user_question ++ "") model none := by
              simp [query_cortex_with_data, hd, hc2]
            rw [heq]
            exact ⟨hq.1, fun sql => by rw [hq.2]; simp⟩
        | some dq =>
            by_cases hdq : dq = ""
            · subst hdq
              have hq := query_cortex_session_down svc st
                (user_question ++ "") model none (Or.inr ⟨c2, hc2, hc2o⟩)
              have heq : query_cortex_with_data svc st user_question model
                  (some "") =
                  query_cortex svc st (user_question ++ "") model none := by
                simp [query_cortex_with_data, hd, hc2]
              rw [heq]
              exact ⟨hq.1, fun sql => by rw [hq.2]; simp⟩
            · cases hdo : dc.isOpen with
              | false =>
                  exact ⟨⟨connectionClosedMsg,
                      Or.inr (by
                        simp [query_cortex_with_data, hd, hc2, hdq, hdo])⟩,
                    fun sql => by
                      simp [query_cortex_with_data, hd, hc2, hdq, hdo]⟩
              | true =>
                  have hq := query_cortex_session_down svc st
                    (user_question ++
                      (dataContextHeader ++ svc.jsonDumps (svc.execDict dq)))
                    model none (Or.inr ⟨c2, hc2, hc2o⟩)
                  constructor
                  · have hres : (query_cortex_with_data svc st user_question
                          model (some dq)).result =
                        (query_cortex svc st
                          (user_question ++
                            (dataContextHeader ++
                              svc.jsonDumps (svc.execDict dq)))
                          model none).result := by
                      simp [query_cortex_with_data, hd, hc2, hdq, hdo]
                    rw [hres]
                    exact hq.1
                  · intro sql
                    have hnet : (query_cortex_with_data svc st user_question
                          model (some dq)).network =
                        NetEvent.submit ConnTag.dashboard dq ::
                          (query_cortex svc st
                            (user_question ++
                              (dataContextHeader ++
                                svc.jsonDumps (svc.execDict dq)))
                            model none).network := by
                      simp [query_cortex_with_data, hd, hc2, hdq, hdo]
                    rw [hnet, hq.2]
                    simp

/-- C2: every query operation against a Session issued while the connect of that
Session has not succeeded, or after its close has run, fails fast with a
connection-state error (the `ConnectionError` of the facade when the slot is
absent, the closed-connection error of the driver after close) and submits no
query to the remote service through that Session; `query_cortex_with_data`
queries the Dashboard Session only when `data_query` is truthy in the Python
sense, that is, neither `None` nor the empty string. -/
theorem query_requires_live_session (svc : RemoteService) (st : DARAState)
    (kpi_name user_question model search_service squery : String)
    (context data_query : Option String) (columns : List String)
    (limit : Nat) :
    (sessionDown st.dashboard_conn →
      isConnStateError (get_dashboard_kpi svc st kpi_name).result ∧
      (get_dashboard_kpi svc st kpi_name).network = []) ∧
    (sessionDown st.cortex_conn →
      isConnStateError (query_cortex svc st user_question model context).result ∧
      (query_cortex svc st user_question model context).network = []) ∧
    (sessionDown st.cortex_conn →
      isConnStateError
        (cortex_search svc st search_service squery columns limit).result ∧
      (cortex_search svc st search_service squery columns limit).network = []) ∧
    (sessionDown st.dashboard_conn →
      noSubmitTo ConnTag.dashboard
        (query_cortex_with_data svc st user_question model data_query).network ∧
      (data_query ≠ none → data_query ≠ some "" →
        isConnStateError
          (query_cortex_with_data svc st user_question model data_query).result)) ∧
    (sessionDown st.cortex_conn →
      isConnStateError
        (query_cortex_with_data svc st user_question model data_query).result ∧
      noSubmitTo ConnTag.cortex
        (query_cortex_with_data svc st user_question model data_query).network) :=
  ⟨fun h => get_dashboard_kpi_session_down svc st kpi_name h,
   fun h => query_cortex_session_down svc st user_question model context h,
   fun h => cortex_search_session_down svc st search_service squery columns
     limit h,
   fun h => query_cortex_with_data_dashboard_down svc st user_question model
     data_query h,
   fun h => query_cortex_with_data_cortex_down svc st user_question model
     data_query h⟩

theorem query_requires_live_session_witness :
    (isConnStateError (get_dashboard_kpi emptyService initState
        "delinquency").result ∧
      (get_dashboard_kpi emptyService initState "delinquency").network = []) ∧
    (isConnStateError (query_cortex emptyService initState "q"
        "snowflake-arctic" none).result ∧
      (query_cortex emptyService initState "q" "snowflake-arctic"
        none).network = []) ∧
    (isConnStateError (cortex_search emptyService initState "servicing_docs"
        "foreclosure process" ["title"] 5).result ∧
      (cortex_search emptyService initState "servicing_docs"
        "foreclosure process" ["title"] 5).network = []) ∧
    (noSubmitTo ConnTag.dashboard (query_cortex_with_data emptyService
        initState "q" "snowflake-arctic" (some "SELECT 1")).network ∧
      isConnStateError (query_cortex_with_data emptyService initState "q"
        "snowflake-arctic" (some "SELECT 1")).result) ∧
    (isConnStateError (query_cortex_with_data emptyService initState "q"
        "snowflake-arctic" (some "SELECT 1")).result ∧
      noSubmitTo ConnTag.cortex (query_cortex_with_data emptyService
        initState "q" "snowflake-arctic" (some "SELECT 1")).network) := by
  have h := query_requires_live_session emptyService initState "delinquency"
    "q" "snowflake-arctic" "servicing_docs" "foreclosure process" none
    (some "SELECT 1") ["title"] 5
  have hd : sessionDown initState.dashboard_conn := Or.inl rfl
  have hc : sessionDown initState.cortex_conn := Or.inl rfl
  exact ⟨h.1 hd, h.2.1 hc, h.2.2.1 hc,
    ⟨(h.2.2.2.1 hd).1, (h.2.2.2.1 hd).2 (by simp) (by simp)⟩,
    h.2.2.2.2 hc⟩

end DARA
